import Mathlib

/-!
Verification of the fastform repository's schema validation
(src/app/fastform.py), chat orchestration (src/app/ai.py) and message
services (src/app/services.py) against its natural-language specification.

The pydantic models are embedded as validators over a JSON-like value type:
validating an input object against a model class is a total function from
`Json` to `Except PyErr Unit`. Pydantic-v2 semantics that the source relies
on are reproduced explicitly:

* every field of every model in src/app/fastform.py is declared required
  (`Field(...)` or a bare annotation), so a model accepts an object exactly
  when each declared key is present with a value of the declared type and no
  undeclared key is present (`model_config = ConfigDict(extra="forbid")`
  inherited from the repository's `BaseModel`);
* an un-discriminated union (`Form.elements`, `TableGroup.rows` cells) tries
  its members and accepts when some member accepts; an exception that is not
  a `ValidationError` escaping a member aborts the whole validation;
* `@model_validator(mode="after")` declared as `def f(cls, values)` is
  auto-wrapped as a classmethod (pydantic `ensure_classmethod_based_on_signature`,
  first parameter named `cls`) and is then called with the freshly
  constructed model instance as `values`; an `AttributeError` raised inside
  it is not converted to a validation error and escapes `model_validate`;
* `@field_validator("rows", mode="after")` is called with the validated
  field value and a `ValidationInfo` whose `data` holds the previously
  validated fields; a `ValueError` it raises becomes a validation error.

JSON numbers are modelled with integer values: no claim checked here
distinguishes integer from floating-point payloads.
-/

namespace Fastform

/-- A JSON-like value: the shape of data validated by the pydantic models of
src/app/fastform.py. Object member lists are assumed duplicate-free, as a
parsed Python dict is. -/
inductive Json where
  | null : Json
  | bool : Bool → Json
  | num : Int → Json
  | str : String → Json
  | arr : List Json → Json
  | obj : List (String × Json) → Json

mutual

/-- Structural equality of JSON values. -/
def Json.beq : Json → Json → Bool
  | .null, .null => true
  | .bool a, .bool b => a == b
  | .num a, .num b => a == b
  | .str a, .str b => a == b
  | .arr xs, .arr ys => Json.beqList xs ys
  | .obj xs, .obj ys => Json.beqKvs xs ys
  | _, _ => false

/-- Structural equality of JSON arrays. -/
def Json.beqList : List Json → List Json → Bool
  | [], [] => true
  | x :: xs, y :: ys => Json.beq x y && Json.beqList xs ys
  | _, _ => false

/-- Structural equality of JSON object member lists. -/
def Json.beqKvs : List (String × Json) → List (String × Json) → Bool
  | [], [] => true
  | (k, v) :: xs, (l, w) :: ys => k == l && Json.beq v w && Json.beqKvs xs ys
  | _, _ => false

end

instance : BEq Json := ⟨Json.beq⟩

/-- Outcome kinds of running a pydantic validation in Python:
`vErr` is a `ValidationError` (or a `ValueError` raised by a validator,
which pydantic converts); `attrErr` is an `AttributeError` escaping the
validation uncaught; `httpErr` is a fastapi `HTTPException` (status code and
detail) raised by the service layer. -/
inductive PyErr where
  | vErr : String → PyErr
  | attrErr : String → PyErr
  | httpErr : Nat → String → PyErr
deriving DecidableEq

deriving instance DecidableEq for Except

/-- First value stored under `key`, as Python `dict` lookup sees it. -/
def lookupKey : List (String × Json) → String → Option Json
  | [], _ => none
  | (k, v) :: rest, key => if k == key then some v else lookupKey rest key

/-- The keys of an object, in member order. -/
def objKeys (kvs : List (String × Json)) : List String := kvs.map Prod.fst

/-- Pydantic's message for a key not declared by the model
(`extra="forbid"`). -/
def extraMsg : String := "Extra inputs are not permitted"

/-- Pydantic's message for a declared key that is absent. -/
def missingMsg : String := "Field required"

/-- Stand-in for pydantic's per-type messages: the claims only depend on the
validation failing, not on this text. -/
def typeMsg : String := "Input should be of the declared type"

/-- The `extra="forbid"` policy of the repository's `BaseModel`
(src/app/fastform.py lines 22-32): reject the object when any of its keys is
not declared by the model. -/
def checkNoExtra (declared : List String) (kvs : List (String × Json)) :
    Except PyErr Unit :=
  if (objKeys kvs).all (fun k => decide (k ∈ declared)) then Except.ok ()
  else Except.error (PyErr.vErr extraMsg)

/-- A required field: present and of the declared type (every field of every
model in src/app/fastform.py is required). -/
def reqField (kvs : List (String × Json)) (key : String) (check : Json → Bool) :
    Except PyErr Unit :=
  match lookupKey kvs key with
  | none => Except.error (PyErr.vErr missingMsg)
  | some v => if check v then Except.ok () else Except.error (PyErr.vErr typeMsg)

/-- Type check for `str`. -/
def isStr : Json → Bool
  | .str _ => true
  | _ => false

/-- Type check for `str | None`. -/
def isStrOrNull : Json → Bool
  | .str _ => true
  | .null => true
  | _ => false

/-- Type check for `int` (also used for `int | float`, see the number note in
the file comment). -/
def isIntJson : Json → Bool
  | .num _ => true
  | _ => false

/-- Type check for `int | None` and `int | float | None`. -/
def isIntOrNull : Json → Bool
  | .num _ => true
  | .null => true
  | _ => false

/-- Type check for `bool`. -/
def isBoolJson : Json → Bool
  | .bool _ => true
  | _ => false

/-- Type check for `bool | None`. -/
def isBoolOrNull : Json → Bool
  | .bool _ => true
  | .null => true
  | _ => false

/-- Type check for `str | int | float` (`SelectOption.value`). -/
def isStrOrNum : Json → Bool
  | .str _ => true
  | .num _ => true
  | _ => false

/-- Type check for `list[str]`. -/
def isStrList : Json → Bool
  | .arr xs => xs.all isStr
  | _ => false

/-- Declared fields of `Coordinate` (src/app/fastform.py lines 35-46). -/
def coordinateFields : List String := ["x", "y"]

/-- Validation against `Coordinate`: an object with exactly the keys `x` and
`y`, each an optional integer. -/
def Coordinate.validate (j : Json) : Except PyErr Unit :=
  match j with
  | .obj kvs => do
      checkNoExtra coordinateFields kvs
      reqField kvs "x" isIntOrNull
      reqField kvs "y" isIntOrNull
  | _ => Except.error (PyErr.vErr typeMsg)

/-- The closed value set of `AnnotationEnum` (src/app/fastform.py lines
49-70), in declaration order. -/
def annotEnumValues : List String :=
  ["TextField", "TextAreaField", "NumberField", "DateField", "CheckboxField",
   "RadioField", "SelectField", "FileField", "ImageField", "SignatureField",
   "EmailField", "UrlField", "PhoneField", "ListField"]

/-- Membership of a string in the closed `AnnotationEnum` value set. -/
def isAnnotEnumStr (s : String) : Bool := decide (s ∈ annotEnumValues)

/-- Type check for the `element_name : AnnotationEnum` field: a JSON string
carrying one of the fourteen enum values. -/
def isAnnotEnum : Json → Bool
  | .str s => isAnnotEnumStr s
  | _ => false

/-- Type check for the `bbox` field: `list[Coordinate]` with
`min_length=2, max_length=2` (src/app/fastform.py lines 92-94). -/
def isBBox : Json → Bool
  | .arr xs => xs.length == 2 && xs.all (fun c => (Coordinate.validate c).isOk)
  | _ => false

/-- Declared fields of the `Annotation` base class (src/app/fastform.py
lines 73-95). -/
def annotBaseFields : List String := ["title", "description", "bbox", "element_name"]

/-- The field checks shared by the `Annotation` base class and, through
inheritance, by every leaf field variant. -/
def annotFieldChecks (kvs : List (String × Json)) : Except PyErr Unit := do
  reqField kvs "title" isStr
  reqField kvs "description" isStr
  reqField kvs "bbox" isBBox
  reqField kvs "element_name" isAnnotEnum

/-- Validation against the `Annotation` base class itself: this is the item
type of `AnnotationGroup.annotations` and of `ListField.items` (the type
variable `t` is unparameterized there, so pydantic resolves it to its bound
`Annotation`). -/
def AnnotBase.validate (j : Json) : Except PyErr Unit :=
  match j with
  | .obj kvs => do
      checkNoExtra annotBaseFields kvs
      annotFieldChecks kvs
  | _ => Except.error (PyErr.vErr typeMsg)

/-- Declared fields of `TextField`. -/
def textFieldFields : List String := annotBaseFields ++ ["value"]

/-- Validation against `TextField` (src/app/fastform.py lines 99-105). -/
def TextField.validate (j : Json) : Except PyErr Unit :=
  match j with
  | .obj kvs => do
      checkNoExtra textFieldFields kvs
      annotFieldChecks kvs
      reqField kvs "value" isStrOrNull
  | _ => Except.error (PyErr.vErr typeMsg)

/-- Declared fields of `TextAreaField`. -/
def textAreaFieldFields : List String := annotBaseFields ++ ["value", "max_length"]

/-- Validation against `TextAreaField` (src/app/fastform.py lines 108-115). -/
def TextAreaField.validate (j : Json) : Except PyErr Unit :=
  match j with
  | .obj kvs => do
      checkNoExtra textAreaFieldFields kvs
      annotFieldChecks kvs
      reqField kvs "value" isStrOrNull
      reqField kvs "max_length" isIntOrNull
  | _ => Except.error (PyErr.vErr typeMsg)

/-- Declared fields of `NumberField`. -/
def numberFieldFields : List String :=
  annotBaseFields ++ ["value", "min_value", "max_value"]

/-- Validation against `NumberField` (src/app/fastform.py lines 118-126). -/
def NumberField.validate (j : Json) : Except PyErr Unit :=
  match j with
  | .obj kvs => do
      checkNoExtra numberFieldFields kvs
      annotFieldChecks kvs
      reqField kvs "value" isIntOrNull
      reqField kvs "min_value" isIntOrNull
      reqField kvs "max_value" isIntOrNull
  | _ => Except.error (PyErr.vErr typeMsg)

/-- Validation against `DateField` (src/app/fastform.py lines 129-132): same
declared fields as `TextField`, the date is a plain string. -/
def DateField.validate (j : Json) : Except PyErr Unit :=
  match j with
  | .obj kvs => do
      checkNoExtra textFieldFields kvs
      annotFieldChecks kvs
      reqField kvs "value" isStrOrNull
  | _ => Except.error (PyErr.vErr typeMsg)

/-- Validation against `CheckboxField` (src/app/fastform.py lines 135-138). -/
def CheckboxField.validate (j : Json) : Except PyErr Unit :=
  match j with
  | .obj kvs => do
      checkNoExtra textFieldFields kvs
      annotFieldChecks kvs
      reqField kvs "value" isBoolOrNull
  | _ => Except.error (PyErr.vErr typeMsg)

/-- Declared fields of `RadioField`. -/
def radioFieldFields : List String := annotBaseFields ++ ["options", "value"]

/-- Validation against `RadioField` (src/app/fastform.py lines 141-145). -/
def RadioField.validate (j : Json) : Except PyErr Unit :=
  match j with
  | .obj kvs => do
      checkNoExtra radioFieldFields kvs
      annotFieldChecks kvs
      reqField kvs "options" isStrList
      reqField kvs "value" isStrOrNull
  | _ => Except.error (PyErr.vErr typeMsg)

/-- Declared fields of `SelectOption` (src/app/fastform.py lines 148-152). -/
def selectOptionFields : List String := ["label", "value"]

/-- Validation against `SelectOption`. -/
def SelectOption.validate (j : Json) : Except PyErr Unit :=
  match j with
  | .obj kvs => do
      checkNoExtra selectOptionFields kvs
      reqField kvs "label" isStr
      reqField kvs "value" isStrOrNum
  | _ => Except.error (PyErr.vErr typeMsg)

/-- Type check for `list[SelectOption]`. -/
def isSelectOptionList : Json → Bool
  | .arr xs => xs.all (fun o => (SelectOption.validate o).isOk)
  | _ => false

/-- Type check for `SelectField.value : list[SelectOption] | SelectOption | None`. -/
def isSelectValue : Json → Bool
  | .null => true
  | .arr xs => xs.all (fun o => (SelectOption.validate o).isOk)
  | j => (SelectOption.validate j).isOk

/-- Declared fields of `SelectField`. -/
def selectFieldFields : List String := annotBaseFields ++ ["options", "multi", "value"]

/-- Python attribute lookup on a freshly validated pydantic model instance:
the instance exposes exactly the model's declared fields (pydantic v2
`BaseModel` defines no `get` method, and with `extra="forbid"` no other
attribute is reachable); looking up any other name raises `AttributeError`. -/
def pydanticGetattr (declaredFields : List String) (kvs : List (String × Json))
    (attr : String) : Except PyErr Json :=
  if attr ∈ declaredFields then
    match lookupKey kvs attr with
    | some v => Except.ok v
    | none => Except.error (PyErr.attrErr attr)
  else Except.error (PyErr.attrErr attr)

/-- Python truthiness of an optional JSON value, for the dead branch of
`check_select` below. -/
def pyTruthy : Option Json → Bool
  | some (.bool b) => b
  | _ => false

/-- Whether the optional JSON value is `None`/absent, for the dead branch of
`check_select` below. -/
def pyIsNone : Option Json → Bool
  | some .null => true
  | none => true
  | _ => false

/-- Whether the optional JSON value is a Python list, for the dead branch of
`check_select` below. -/
def pyIsList : Option Json → Bool
  | some (.arr _) => true
  | _ => false

/-- The `SelectField.check_select` model validator (src/app/fastform.py lines
164-172). It is declared `@model_validator(mode="after")` with signature
`(cls, values)`: pydantic auto-wraps it as a classmethod because the first
parameter is named `cls`, and an after-mode classmethod validator is called
with the constructed model instance as `values`. Its first statement,
`values.get("multi")`, is therefore an attribute lookup of `get` on a
`SelectField` instance, which raises `AttributeError` before any cardinality
check runs (verified against pydantic 2.x). The cardinality branch below
mirrors the written body and is unreachable. -/
def SelectField.check_select (kvs : List (String × Json)) : Except PyErr Unit :=
  match pydanticGetattr selectFieldFields kvs "get" with
  | Except.error e => Except.error e
  | Except.ok _ =>
      let multi := lookupKey kvs "multi"
      let val := lookupKey kvs "value"
      if pyTruthy multi && !pyIsNone val && !pyIsList val then
        Except.error (PyErr.vErr "When multi=True, value must be a list")
      else if !pyTruthy multi && pyIsList val then
        Except.error (PyErr.vErr "When multi=False, value must be a single item")
      else Except.ok ()

/-- Validation against `SelectField` (src/app/fastform.py lines 155-172):
field validation, then the `check_select` after-validator. -/
def SelectField.validate (j : Json) : Except PyErr Unit :=
  match j with
  | .obj kvs => do
      checkNoExtra selectFieldFields kvs
      annotFieldChecks kvs
      reqField kvs "options" isSelectOptionList
      reqField kvs "multi" isBoolJson
      reqField kvs "value" isSelectValue
      SelectField.check_select kvs
  | _ => Except.error (PyErr.vErr typeMsg)

/-- Declared fields of `FileField` (and of `ImageField`, which overrides only
the description of `allowed`). -/
def fileFieldFields : List String := annotBaseFields ++ ["allowed", "max_mb", "value"]

/-- Validation against `FileField` (src/app/fastform.py lines 175-180). -/
def FileField.validate (j : Json) : Except PyErr Unit :=
  match j with
  | .obj kvs => do
      checkNoExtra fileFieldFields kvs
      annotFieldChecks kvs
      reqField kvs "allowed" isStrList
      reqField kvs "max_mb" isIntOrNull
      reqField kvs "value" isStrOrNull
  | _ => Except.error (PyErr.vErr typeMsg)

/-- Validation against `ImageField` (src/app/fastform.py lines 183-189):
inherits `FileField` with the same declared fields and types. -/
def ImageField.validate (j : Json) : Except PyErr Unit :=
  match j with
  | .obj kvs => do
      checkNoExtra fileFieldFields kvs
      annotFieldChecks kvs
      reqField kvs "allowed" isStrList
      reqField kvs "max_mb" isIntOrNull
      reqField kvs "value" isStrOrNull
  | _ => Except.error (PyErr.vErr typeMsg)

/-- Validation against `SignatureField` (src/app/fastform.py lines 192-195). -/
def SignatureField.validate (j : Json) : Except PyErr Unit :=
  match j with
  | .obj kvs => do
      checkNoExtra textFieldFields kvs
      annotFieldChecks kvs
      reqField kvs "value" isStrOrNull
  | _ => Except.error (PyErr.vErr typeMsg)

/-- Validation against `EmailField` (src/app/fastform.py lines 198-201). -/
def EmailField.validate (j : Json) : Except PyErr Unit :=
  match j with
  | .obj kvs => do
      checkNoExtra textFieldFields kvs
      annotFieldChecks kvs
      reqField kvs "value" isStrOrNull
  | _ => Except.error (PyErr.vErr typeMsg)

/-- Validation against `UrlField` (src/app/fastform.py lines 204-207). -/
def UrlField.validate (j : Json) : Except PyErr Unit :=
  match j with
  | .obj kvs => do
      checkNoExtra textFieldFields kvs
      annotFieldChecks kvs
      reqField kvs "value" isStrOrNull
  | _ => Except.error (PyErr.vErr typeMsg)

/-- Validation against `PhoneField` (src/app/fastform.py lines 210-213). -/
def PhoneField.validate (j : Json) : Except PyErr Unit :=
  match j with
  | .obj kvs => do
      checkNoExtra textFieldFields kvs
      annotFieldChecks kvs
      reqField kvs "value" isStrOrNull
  | _ => Except.error (PyErr.vErr typeMsg)

/-- Declared fields of `ListField`. -/
def listFieldFields : List String := annotBaseFields ++ ["items"]

/-- Type check for `ListField.items : list[t] | None` with the unbound type
variable resolved to its bound `Annotation`. -/
def isItemsList : Json → Bool
  | .null => true
  | .arr xs => xs.all (fun a => (AnnotBase.validate a).isOk)
  | _ => false

/-- Validation against `ListField` (src/app/fastform.py lines 216-219). -/
def ListField.validate (j : Json) : Except PyErr Unit :=
  match j with
  | .obj kvs => do
      checkNoExtra listFieldFields kvs
      annotFieldChecks kvs
      reqField kvs "items" isItemsList
  | _ => Except.error (PyErr.vErr typeMsg)

/-- The closed value set of `AnnotationGroupEnum` (src/app/fastform.py lines
222-233). -/
def groupEnumValues : List String :=
  ["SectionGroup", "RepeatGroup", "WizardStep", "TableGroup"]

/-- Type check for `element_name : AnnotationGroupEnum`. -/
def isGroupEnum : Json → Bool
  | .str s => decide (s ∈ groupEnumValues)
  | _ => false

/-- Declared fields of the `AnnotationGroup` base class (src/app/fastform.py
lines 236-251). -/
def groupBaseFields : List String := ["title", "description", "annotations", "element_name"]

/-- Type check for `annotations : list[Annotation]` with `min_length=1`. -/
def isAnnotList : Json → Bool
  | .arr xs => decide (1 ≤ xs.length) && xs.all (fun a => (AnnotBase.validate a).isOk)
  | _ => false

/-- The field checks shared by every group variant through `AnnotationGroup`. -/
def groupFieldChecks (kvs : List (String × Json)) : Except PyErr Unit := do
  reqField kvs "title" isStr
  reqField kvs "description" isStr
  reqField kvs "annotations" isAnnotList
  reqField kvs "element_name" isGroupEnum

/-- Declared fields of `SectionGroup`. -/
def sectionGroupFields : List String := groupBaseFields ++ ["collapsible", "collapsed"]

/-- Validation against `SectionGroup` (src/app/fastform.py lines 254-258). -/
def SectionGroup.validate (j : Json) : Except PyErr Unit :=
  match j with
  | .obj kvs => do
      checkNoExtra sectionGroupFields kvs
      groupFieldChecks kvs
      reqField kvs "collapsible" isBoolJson
      reqField kvs "collapsed" isBoolJson
  | _ => Except.error (PyErr.vErr typeMsg)

/-- Declared fields of `RepeatGroup`. -/
def repeatGroupFields : List String := groupBaseFields ++ ["min_val", "max_val"]

/-- Validation against `RepeatGroup` (src/app/fastform.py lines 261-265). -/
def RepeatGroup.validate (j : Json) : Except PyErr Unit :=
  match j with
  | .obj kvs => do
      checkNoExtra repeatGroupFields kvs
      groupFieldChecks kvs
      reqField kvs "min_val" isIntJson
      reqField kvs "max_val" isIntOrNull
  | _ => Except.error (PyErr.vErr typeMsg)

/-- Declared fields of `WizardStep`. -/
def wizardStepFields : List String := groupBaseFields ++ ["order", "optional"]

/-- Validation against `WizardStep` (src/app/fastform.py lines 268-272). -/
def WizardStep.validate (j : Json) : Except PyErr Unit :=
  match j with
  | .obj kvs => do
      checkNoExtra wizardStepFields kvs
      groupFieldChecks kvs
      reqField kvs "order" isIntOrNull
      reqField kvs "optional" isBoolJson
  | _ => Except.error (PyErr.vErr typeMsg)

/-- Un-discriminated union validation: try the members in declared order and
accept as soon as one accepts; a member's `ValidationError` moves on to the
next member, while an `AttributeError` escaping a member (see
`SelectField.check_select`) aborts the whole validation. -/
def unionValidate : List (Json → Except PyErr Unit) → Json → Except PyErr Unit
  | [], _ => Except.error (PyErr.vErr typeMsg)
  | f :: fs, j =>
      match f j with
      | Except.ok _ => Except.ok ()
      | Except.error (PyErr.attrErr m) => Except.error (PyErr.attrErr m)
      | Except.error _ => unionValidate fs j

/-- The members of the cell union of `TableGroup.rows` (src/app/fastform.py
lines 279-299), in declared order: the fourteen leaf field variants and the
three non-table group variants. -/
def cellValidators : List (Json → Except PyErr Unit) :=
  [TextField.validate, TextAreaField.validate, NumberField.validate,
   DateField.validate, CheckboxField.validate, RadioField.validate,
   SelectField.validate, FileField.validate, ImageField.validate,
   SignatureField.validate, EmailField.validate, UrlField.validate,
   PhoneField.validate, ListField.validate, SectionGroup.validate,
   RepeatGroup.validate, WizardStep.validate]

/-- Validate every cell of one table row against the cell union. -/
def validateCells : List Json → Except PyErr Unit
  | [] => Except.ok ()
  | c :: cs =>
      match unionValidate cellValidators c with
      | Except.ok _ => validateCells cs
      | Except.error e => Except.error e

/-- Validate every row's cells. -/
def validateRowCells : List (List Json) → Except PyErr Unit
  | [] => Except.ok ()
  | row :: rest =>
      match validateCells row with
      | Except.ok _ => validateRowCells rest
      | Except.error e => Except.error e

/-- View a JSON array as a list of rows (each row itself an array), as the
`rows : list[list[...]]` field type requires. -/
def asRows : List Json → Option (List (List Json))
  | [] => some []
  | .arr cells :: rest => (asRows rest).map (fun rs => cells :: rs)
  | _ => none

/-- The `TableGroup.match_columns` field validator (src/app/fastform.py lines
301-307): walk the validated rows and raise `ValueError` at the first row
whose length differs from the number of columns. -/
def TableGroup.match_columns (columns : List String) : List (List Json) → Except PyErr Unit
  | [] => Except.ok ()
  | row :: rest =>
      if row.length ≠ columns.length then
        Except.error (PyErr.vErr "Row length must equal number of columns")
      else TableGroup.match_columns columns rest

/-- The validated `columns` value seen by `match_columns` through
`info.data.get("columns", [])`: by that point `columns` passed `list[str]`
validation, so every entry is a string. -/
def colNames (kvs : List (String × Json)) : List String :=
  match lookupKey kvs "columns" with
  | some (.arr xs) =>
      xs.filterMap (fun j => match j with | .str s => some s | _ => none)
  | _ => []

/-- Declared fields of `TableGroup`. -/
def tableGroupFields : List String := groupBaseFields ++ ["columns", "rows"]

/-- The `rows` field of `TableGroup`: type validation of every cell against
the cell union, then the `match_columns` field validator. -/
def rowsCheck (kvs : List (String × Json)) : Except PyErr Unit :=
  match lookupKey kvs "rows" with
  | none => Except.error (PyErr.vErr missingMsg)
  | some (.arr rws) =>
      match asRows rws with
      | none => Except.error (PyErr.vErr typeMsg)
      | some rowLists => do
          validateRowCells rowLists
          TableGroup.match_columns (colNames kvs) rowLists
  | some _ => Except.error (PyErr.vErr typeMsg)

/-- Validation against `TableGroup` (src/app/fastform.py lines 275-307). -/
def TableGroup.validate (j : Json) : Except PyErr Unit :=
  match j with
  | .obj kvs => do
      checkNoExtra tableGroupFields kvs
      groupFieldChecks kvs
      reqField kvs "columns" isStrList
      rowsCheck kvs
  | _ => Except.error (PyErr.vErr typeMsg)

/-- The members of the `Form.elements` union (src/app/fastform.py lines
315-334), in declared order: the same seventeen members as the cell union
followed by `TableGroup`. -/
def elementValidators : List (Json → Except PyErr Unit) :=
  cellValidators ++ [TableGroup.validate]

/-- Validation of one form element against the `Form.elements` union. -/
def Element.validate (j : Json) : Except PyErr Unit :=
  unionValidate elementValidators j

/-- Validate every element of a form. -/
def validateElems : List Json → Except PyErr Unit
  | [] => Except.ok ()
  | e :: es =>
      match Element.validate e with
      | Except.ok _ => validateElems es
      | Except.error err => Except.error err

/-- Declared fields of `Form` (src/app/fastform.py lines 310-334). -/
def formFields : List String := ["title", "description", "elements"]

/-- Validation against the root `Form` model. -/
def Form.validate (j : Json) : Except PyErr Unit :=
  match j with
  | .obj kvs => do
      checkNoExtra formFields kvs
      reqField kvs "title" isStr
      reqField kvs "description" isStr
      (match lookupKey kvs "elements" with
       | none => Except.error (PyErr.vErr missingMsg)
       | some (.arr es) => validateElems es
       | some _ => Except.error (PyErr.vErr typeMsg))
  | _ => Except.error (PyErr.vErr typeMsg)

mutual

/-- A JSON value with every `value` member removed, at every depth. -/
def Json.stripValues : Json → Json
  | .obj kvs => .obj (Json.stripValuesKvs kvs)
  | .arr xs => .arr (Json.stripValuesArr xs)
  | j => j

/-- `Json.stripValues` over an array. -/
def Json.stripValuesArr : List Json → List Json
  | [] => []
  | x :: xs => Json.stripValues x :: Json.stripValuesArr xs

/-- `Json.stripValues` over an object's members. -/
def Json.stripValuesKvs : List (String × Json) → List (String × Json)
  | [] => []
  | (k, v) :: rest =>
      if k == "value" then Json.stripValuesKvs rest
      else (k, Json.stripValues v) :: Json.stripValuesKvs rest

end

/-- Modelled from the spec: the Fill-flow structure-preservation relation of
section 4.2 ("the generator must reproduce the exact structure, only `value`
attributes may differ") — two payloads carry the same structure when they
agree after every `value` attribute is removed. This definition follows the
spec's words, for comparison against what the code enforces. -/
def specSameStructure (a b : Json) : Bool :=
  Json.beq (Json.stripValues a) (Json.stripValues b)

mutual

/-- Compact JSON rendering, as `json.dumps` would emit the payload text of a
structure message (string escaping is elided: no payload in this development
contains a quote or a backslash). -/
def Json.render : Json → String
  | .null => "null"
  | .bool true => "true"
  | .bool false => "false"
  | .num n => toString n
  | .str s => "\"" ++ s ++ "\""
  | .arr xs => "[" ++ Json.renderArr xs ++ "]"
  | .obj kvs => "\x7b" ++ Json.renderKvs kvs ++ "\x7d"

/-- `Json.render` over an array's elements. -/
def Json.renderArr : List Json → String
  | [] => ""
  | [x] => Json.render x
  | x :: xs => Json.render x ++ ", " ++ Json.renderArr xs

/-- `Json.render` over an object's members. -/
def Json.renderKvs : List (String × Json) → String
  | [] => ""
  | [(k, v)] => "\"" ++ k ++ "\": " ++ Json.render v
  | (k, v) :: rest => "\"" ++ k ++ "\": " ++ Json.render v ++ ", " ++ Json.renderKvs rest

end

/-- The `Response` enumeration of src/app/ai.py lines 38-43: the closed value
set of the classifier decision. The `json(name="yes_no", schema=YesNo)` call
constrains generation to the `YesNo` schema, whose single field `selection`
carries one of these two values, so no other classifier outcome exists. -/
inductive Response where
  | yes : Response
  | no : Response
deriving DecidableEq

/-- The serialized value of a `Response` member, as in `Response.yes.value`. -/
def Response.value : Response → String
  | .yes => "yes"
  | .no => "no"

/-- One typed part of a conversation message's content: text, or an image
reference (the `image_url` content item of src/app/services.py lines
359-366). -/
inductive ContentPart where
  | text : String → ContentPart
  | image_url : String → ContentPart
deriving DecidableEq

/-- A guidance `ContentMessage`: a role-tagged list of content parts. -/
structure ContentMessage where
  role : String
  content : List ContentPart
deriving DecidableEq

/-- The guidance interpreter's message state, at the library boundary the
orchestration code relies on (spec sections 4.2 and 6): `messages` holds the
committed messages in order; opening a `with assistant():` block commits the
previously active message and starts a new active assistant message, which
`get_active_message()` returns while it is still open. -/
structure InterpreterState where
  messages : List ContentMessage
  active : Option ContentMessage

/-- One `with assistant(): lm += parts` block: commit the previously active
message and open a new assistant message carrying `parts`. -/
def InterpreterState.assistantAdd (st : InterpreterState) (parts : List ContentPart) :
    InterpreterState :=
  { messages := st.messages ++ st.active.toList, active := some ⟨"assistant", parts⟩ }

/-- `lm._interpreter.state.get_active_message()`, as the singleton list the
call sites wrap it in. -/
def InterpreterState.get_active_message (st : InterpreterState) : List ContentMessage :=
  st.active.toList

/-- Python `xs[-2]` wrapped in a singleton list, as at src/app/ai.py lines
98 and 159 (`[state.messages[-2]]`); empty when the list is too short, a
case no reachable run produces. -/
def pyIndexNeg2 (l : List ContentMessage) : List ContentMessage :=
  (l.get? (l.length - 2)).toList

/-- The outputs the language model produces in one turn, one per generation
call site of src/app/ai.py: the schema-constrained classifier decision
(`yes_no`), the schema-constrained form payload (`new_form`/`filled_form`),
and the two free-text `gen("message")` outcomes. The decision is typed
`Response` because the `YesNo` schema constrains it to that closed set. -/
structure LmOracle where
  yes_no : Response
  gen_form : Json
  message_yes : String
  message_no : String

/-- The raw text captured under the name `yes_no`: the `YesNo`-schema JSON
object whose `selection` field holds the decision;
`j.loads(lm["yes_no"])["selection"]` recovers exactly `r.value` from it. -/
def yesNoJsonText (r : Response) : String :=
  "\x7b\"selection\": \"" ++ r.value ++ "\"\x7d"

/-- The fixed analysis prompt the Build flow appends first (src/app/ai.py
lines 67-76, apostrophes elided). -/
def buildAnalysisText : String :=
  "Now I will analyze the users request to determine if they are asking to create
a new form or modify an existing one.
If any of the above is true, I will respond with a JSON object containing
the form structure.
If not, I will continue with the conversation as usual.

So, Is the user asking to create a new form or modify an existing one?"

/-- The fixed generation announcement of the Build yes-branch. -/
def buildGenIntroText : String :=
  "Now I will generate a new form based on the users request."

/-- The fixed commentary announcement of the Build yes-branch. -/
def buildCommentIntroText : String :=
  "Now I will provide additional commentary/end of message comment on the above
form structure but not repeat the structure itself."

/-- The fixed no-branch text of the Build flow. -/
def buildNoText : String :=
  "The user is not asking to create a new form or modify an existing one.
I will continue with the conversation as usual."

/-- The fixed analysis prompt the Fill flow appends first (src/app/ai.py
lines 131-137). -/
def fillAnalysisText : String :=
  "Now I will analyze the users request to determine if they are asking to fill out
a form based on the provided form structure.
If yes I will respond with a JSON object containing the filled form.
If not, I will continue with the conversation as usual."

/-- The fixed generation announcement of the Fill yes-branch. -/
def fillGenIntroText : String :=
  "Now I will generate a filled form based on the users request."

/-- The fixed commentary announcement of the Fill yes-branch. -/
def fillCommentIntroText : String :=
  "Now I will provide additional commentary/end of message comment on the above
filled form but not repeat the form itself."

/-- The fixed no-branch text of the Fill flow. -/
def fillNoText : String :=
  "The user is not asking to fill out a form based on the provided form structure.
I will continue with the conversation as usual."

/-- The schema the Fill flow's structured generation is constrained to: the
call at src/app/ai.py line 150 is `json(name="filled_form", schema=Form)`,
the generic `Form` model — not a schema derived from the previously stored
structure. -/
def fillGenerationSchema : Json → Except PyErr Unit := Form.validate

/-- `fastformbuild_chat` of src/app/ai.py lines 52-113: seed the interpreter
state with the assembled messages, append the assistant blocks in order, and
select the returned messages per the classifier decision. -/
def fastformbuild_chat (lm : LmOracle) (messages : List ContentMessage) :
    List ContentMessage :=
  let st := InterpreterState.mk messages none
  let st := st.assistantAdd [ContentPart.text buildAnalysisText]
  let st := st.assistantAdd [ContentPart.text (yesNoJsonText lm.yes_no)]
  let selection := lm.yes_no.value
  if selection == "yes" then
    let st := st.assistantAdd [ContentPart.text buildGenIntroText]
    let st := st.assistantAdd [ContentPart.text (Json.render lm.gen_form)]
    let st := st.assistantAdd [ContentPart.text buildCommentIntroText]
    let st := st.assistantAdd [ContentPart.text lm.message_yes]
    pyIndexNeg2 st.messages ++ st.get_active_message
  else if selection == "no" then
    let st := st.assistantAdd [ContentPart.text buildNoText]
    let st := st.assistantAdd [ContentPart.text lm.message_no]
    st.get_active_message
  else []

/-- `fastformfill_chat` of src/app/ai.py lines 116-174: identical control
flow to `fastformbuild_chat` with the Fill prompt texts; the structured
generation is constrained by `fillGenerationSchema` (the generic `Form`
model) and its payload is returned verbatim as the structure message. -/
def fastformfill_chat (lm : LmOracle) (messages : List ContentMessage) :
    List ContentMessage :=
  let st := InterpreterState.mk messages none
  let st := st.assistantAdd [ContentPart.text fillAnalysisText]
  let st := st.assistantAdd [ContentPart.text (yesNoJsonText lm.yes_no)]
  let selection := lm.yes_no.value
  if selection == "yes" then
    let st := st.assistantAdd [ContentPart.text fillGenIntroText]
    let st := st.assistantAdd [ContentPart.text (Json.render lm.gen_form)]
    let st := st.assistantAdd [ContentPart.text fillCommentIntroText]
    let st := st.assistantAdd [ContentPart.text lm.message_yes]
    pyIndexNeg2 st.messages ++ st.get_active_message
  else if selection == "no" then
    let st := st.assistantAdd [ContentPart.text fillNoText]
    let st := st.assistantAdd [ContentPart.text lm.message_no]
    st.get_active_message
  else []

/-- The Build system prompt of src/app/ai.py lines 14-21 (apostrophes
elided; no claim depends on this text). -/
def SYSTEM_PROMPT : String :=
  "You are a helpful assistant for the FastForm application.
Your task is to assist users in creating and modifying forms based on their requests.

You are not supposed to provide any values for any of the bbox fields in the form. If
the frontend system provides values for the bbox fields, you must not change them.
Analyze the users request and provide the necessary changes to the form structure. Try
to cover all possible fields that the page might have."

/-- The text of the Fill system prompt before the `form_structure`
placeholder (src/app/ai.py lines 23-27). -/
def SYSTEM_PROMPT_FILL_pre : String :=
  "You are a helpful assistant for the FastForm application.
Your task is to assist users in filling out forms based on their requests. Here is the
form structure:

"

/-- The text of the Fill system prompt after the `form_structure`
placeholder (src/app/ai.py lines 29-35). -/
def SYSTEM_PROMPT_FILL_post : String :=
  "

You must not deviate from the provided structure expect for values filled in by the
frontend system.

The frontend system might change values of the fields but NEVER change the structure
of the form and you must not do the same. Your task is to just fill in the fields based
on the conversation with the user."

/-- `SYSTEM_PROMPT_FILL.format(form_structure=s)`: the stored structure is
embedded verbatim as text inside the fixed instruction template. -/
def SYSTEM_PROMPT_FILL_format (form_structure : String) : String :=
  SYSTEM_PROMPT_FILL_pre ++ form_structure ++ SYSTEM_PROMPT_FILL_post

/-- Modelled from the spec: the persisted `Message` row (its class lives in
src/app/models.py, which is not among the repository files under src/).
Following spec section 3, a stored message is role-tagged content parts,
keyed by an opaque thread id, attributed to a user, and ordered by creation
time within its thread; the content column holds the serialized
`ContentMessage`, modelled here structurally since
`ContentMessage.model_validate_json(m.content)` inverts `model_dump_json()`. -/
structure Message where
  content : ContentMessage
  thread_id : String
  user_id : String
  timestamp : Nat
deriving DecidableEq

/-- The request payload for a chat turn (src/app/schemas.py):
`MessageCreateBase` fields plus `load_annotation_id`, which only the
Fill-flow `FastfillMessageCreate` declares (`None` elsewhere). -/
structure MessageCreateData where
  content : String
  thread_id : String
  user_id : String
  load_annotation_id : Option Nat

/-- Stable sort of a thread by timestamp: `thread.sort(key=lambda m: m.timestamp)`
(src/app/services.py lines 352 and 470). -/
def insertByTs (m : Message) : List Message → List Message
  | [] => [m]
  | x :: xs => if m.timestamp < x.timestamp then m :: x :: xs else x :: insertByTs m xs

/-- Insertion sort by timestamp (stable, like Python `list.sort`). -/
def sortByTimestamp : List Message → List Message
  | [] => []
  | x :: xs => insertByTs x (sortByTimestamp xs)

/-- Whether the byte is in the base64 alphabet `A-Z a-z 0-9 + /`. -/
def b64AlphabetChar (c : UInt8) : Bool :=
  (65 ≤ c && c ≤ 90) || (97 ≤ c && c ≤ 122) || (48 ≤ c && c ≤ 57) ||
    c == 43 || c == 47

/-- The decode loop of `binascii.a2b_base64` in strict mode, one step per
input byte: `quad_pos` counts the data characters of the current four-byte
quantum, `pads` the padding bytes consumed for it, `padding_started` whether
a padding byte has been seen. A padding byte after two or three data
characters completes the quantum (and any byte after that completion is an
error); a padding byte after zero or one data characters is skipped; a data
character after padding started, or any byte outside the alphabet, is an
error; the input may end only on a quantum boundary. -/
def a2bBase64StrictLoop : List UInt8 → Nat → Nat → Bool → Bool
  | [], quad_pos, _, _ => quad_pos == 0
  | c :: rest, quad_pos, pads, padding_started =>
      if c == 61 then
        if 2 ≤ quad_pos then
          if 4 ≤ quad_pos + (pads + 1) then rest.isEmpty
          else a2bBase64StrictLoop rest quad_pos (pads + 1) true
        else a2bBase64StrictLoop rest quad_pos pads true
      else if b64AlphabetChar c then
        if padding_started then false
        else a2bBase64StrictLoop rest ((quad_pos + 1) % 4) 0 false
      else false

/-- `MessageService._is_valid_base64_image` (src/app/services.py lines
261-275): whether `base64.b64decode(b, validate=True)` succeeds. Since
Python 3.11 that call is exactly `binascii.a2b_base64(b, strict_mode=True)`:
a leading padding byte is an error, then the strict decode loop runs — so
for example `abcd=` and `abcd==` (trailing pads after a complete quantum)
are accepted, while a quantum of one data character is not. This embedding
agrees with the CPython 3.11 stdlib on every byte string of length up to
five over a nine-byte probe alphabet (data, pad, whitespace and invalid
bytes), on a data-length times padding-length grid up to sixteen by five,
and on twenty thousand random inputs; the theorems below are insensitive to
the predicate's exact boundary. -/
def MessageService._is_valid_base64_image (b : List UInt8) : Bool :=
  match b with
  | [] => true
  | c :: _ => if c == 61 then false else a2bBase64StrictLoop b 0 0 false

/-- `page.decode("utf-8")` on bytes that passed the base64 check: all such
bytes are ASCII, so the decode is the character-wise reading. -/
def asciiDecode (b : List UInt8) : String :=
  String.mk (b.map (fun c => Char.ofNat c.toNat))

/-- The `image_url` content item appended for a valid page
(src/app/services.py lines 359-366). -/
def mkImagePart (page : List UInt8) : ContentPart :=
  ContentPart.image_url ("data:image/png;base64," ++ asciiDecode page)

/-- The attachment loop of src/app/services.py lines 356-368: append an
image item per valid page, `continue` past invalid ones. -/
def contentAppendLoop : List (List UInt8) → List ContentPart
  | [] => []
  | page :: rest =>
      if MessageService._is_valid_base64_image page then
        mkImagePart page :: contentAppendLoop rest
      else contentAppendLoop rest

/-- The `content_items` assembly of a Build turn (src/app/services.py lines
355-368): the text item, then the image items of the valid pages when
`form_pages` is supplied. -/
def buildContentItems (content : String) (form_pages : Option (List (List UInt8))) :
    List ContentPart :=
  let items := [ContentPart.text content]
  match form_pages with
  | none => items
  | some pages => items ++ contentAppendLoop pages

/-- `MessageService._get_thread_history` (src/app/services.py lines 277-294):
the thread's messages, or a 404 `HTTPException` when there are none. -/
def MessageService._get_thread_history (store : List Message) (thread_id : String) :
    Except PyErr (List Message) :=
  let thread := store.filter (fun m => m.thread_id == thread_id)
  if thread.isEmpty then
    Except.error (PyErr.httpErr 404 ("Thread " ++ thread_id ++ " not found"))
  else Except.ok thread

/-- `AnnotationService.get_annotation_by_id` (src/app/services.py lines
121-136), restricted to the `structure` column the Fill flow reads: the
stored structure string, or a 404 `HTTPException`. -/
def AnnotationService.get_annotation_by_id (annotations : List (Nat × String))
    (annotation_id : Nat) : Except PyErr String :=
  match annotations.find? (fun a => a.fst == annotation_id) with
  | some a => Except.ok a.snd
  | none =>
      Except.error (PyErr.httpErr 404
        ("Annotation " ++ toString annotation_id ++ " not found"))

/-- `FastformBuildMessageService.chat` (src/app/services.py lines 314-408),
with the persisted message store passed explicitly and the language-model
stage abstracted as `lm` (the `fastformbuild_chat` call, which may raise):
recover a missing thread by seeding the Build system message (committed),
sort the history, assemble the user message (text plus valid image pages),
persist it (committed), run the model stage, and only then persist its
messages. `now` models the server clock assigning creation timestamps.
Returns the store after the turn and the turn's outcome. -/
def FastformBuildMessageService.chat (store : List Message)
    (lm : List ContentMessage → Except PyErr (List ContentMessage))
    (message_data : MessageCreateData)
    (form_pages : Option (List (List UInt8))) (now : Nat) :
    List Message × Except PyErr (List Message) :=
  let thread_id := message_data.thread_id
  let seeded :=
    match MessageService._get_thread_history store thread_id with
    | Except.ok t => (store, t)
    | Except.error _ =>
        let system_message : Message :=
          ⟨⟨"system", [ContentPart.text SYSTEM_PROMPT]⟩, thread_id,
            message_data.user_id, now⟩
        (store ++ [system_message], [system_message])
  let store1 := seeded.fst
  let thread := sortByTimestamp seeded.snd
  let history := thread.map (fun m => m.content)
  let content_items := buildContentItems message_data.content form_pages
  let user_message : ContentMessage := ⟨"user", content_items⟩
  let messages := history ++ [user_message]
  let user_message_db : Message :=
    ⟨user_message, thread_id, message_data.user_id, now + 1⟩
  let store2 := store1 ++ [user_message_db]
  match lm messages with
  | Except.error e => (store2, Except.error e)
  | Except.ok resp =>
      let created := resp.map (fun m =>
        (⟨m, thread_id, message_data.user_id, now + 2⟩ : Message))
      (store2 ++ created, Except.ok created)

/-- `FastfillMessageService.chat` (src/app/services.py lines 418-512): look
up the referenced stored structure first (`if message_data.load_annotation_id`
is Python truthiness, so `None` and `0` both skip the lookup; a failed
lookup propagates with nothing persisted), seed a missing thread with the
Fill system prompt parameterized by the structure (or the "No structure
provided" placeholder), then proceed as the Build flow without image pages. -/
def FastfillMessageService.chat (store : List Message)
    (annotations : List (Nat × String))
    (lm : List ContentMessage → Except PyErr (List ContentMessage))
    (message_data : MessageCreateData) (now : Nat) :
    List Message × Except PyErr (List Message) :=
  let thread_id := message_data.thread_id
  let annotationLookup : Except PyErr (Option String) :=
    match message_data.load_annotation_id with
    | some i =>
        if i ≠ 0 then
          match AnnotationService.get_annotation_by_id annotations i with
          | Except.ok s => Except.ok (some s)
          | Except.error e => Except.error e
        else Except.ok none
    | none => Except.ok none
  match annotationLookup with
  | Except.error e => (store, Except.error e)
  | Except.ok annotationStruct =>
      let seeded :=
        match MessageService._get_thread_history store thread_id with
        | Except.ok t => (store, t)
        | Except.error _ =>
            let system_message : Message :=
              ⟨⟨"system",
                 [ContentPart.text (SYSTEM_PROMPT_FILL_format
                   (annotationStruct.getD "No structure provided"))]⟩,
                thread_id, message_data.user_id, now⟩
            (store ++ [system_message], [system_message])
      let store1 := seeded.fst
      let thread := sortByTimestamp seeded.snd
      let history := thread.map (fun m => m.content)
      let content_items := [ContentPart.text message_data.content]
      let user_message : ContentMessage := ⟨"user", content_items⟩
      let messages := history ++ [user_message]
      let user_message_db : Message :=
        ⟨user_message, thread_id, message_data.user_id, now + 1⟩
      let store2 := store1 ++ [user_message_db]
      match lm messages with
      | Except.error e => (store2, Except.error e)
      | Except.ok resp =>
          let created := resp.map (fun m =>
            (⟨m, thread_id, message_data.user_id, now + 2⟩ : Message))
          (store2 ++ created, Except.ok created)

/-! ### Concrete instances used by the theorems below -/

/-- A null coordinate, as the generation prompts request. -/
def sampleCoord : Json := Json.obj [("x", Json.null), ("y", Json.null)]

/-- A well-formed bounding box: exactly two coordinates. -/
def sampleBBoxJson : Json := Json.arr [sampleCoord, sampleCoord]

/-- A leaf-field instance: the common `Annotation` members with the given
`element_name` discriminator, plus the variant-specific members. -/
def mkFieldSample (extra : List (String × Json)) (en : String) : Json :=
  Json.obj ([("title", Json.str "t"), ("description", Json.str "d"),
             ("bbox", sampleBBoxJson), ("element_name", Json.str en)] ++ extra)

/-- One otherwise-valid instance per leaf field variant other than
`SelectField` (whose every instance fails, see
`SelectField.check_select`), each carrying the discriminator string `en`:
text, textarea, number, date, checkbox, radio, file, image, signature,
email, url, phone and list shapes in order. -/
def sampleFieldJsons (en : String) : List Json :=
  [mkFieldSample [("value", Json.str "v")] en,
   mkFieldSample [("value", Json.str "v"), ("max_length", Json.null)] en,
   mkFieldSample [("value", Json.num 1), ("min_value", Json.null), ("max_value", Json.null)] en,
   mkFieldSample [("value", Json.str "2024-01-01")] en,
   mkFieldSample [("value", Json.bool true)] en,
   mkFieldSample [("options", Json.arr [Json.str "a"]), ("value", Json.null)] en,
   mkFieldSample [("allowed", Json.arr [Json.str "application/pdf"]), ("max_mb", Json.null),
                  ("value", Json.null)] en,
   mkFieldSample [("allowed", Json.arr [Json.str "image/png"]), ("max_mb", Json.num 5),
                  ("value", Json.null)] en,
   mkFieldSample [("value", Json.null)] en,
   mkFieldSample [("value", Json.str "a@b.c")] en,
   mkFieldSample [("value", Json.null)] en,
   mkFieldSample [("value", Json.str "+123")] en,
   mkFieldSample [("items", Json.null)] en]

/-- A `SelectField`-shaped instance whose every member conforms: one option,
`multi=false`, `value=null`, carrying the discriminator string `en`. -/
def selectSample (en : String) : Json :=
  mkFieldSample
    [("options", Json.arr [Json.obj [("label", Json.str "A"), ("value", Json.str "a")]]),
     ("multi", Json.bool false), ("value", Json.null)] en

/-- A `SelectField`-shaped instance violating the declared cardinality rule:
`multi=false` with a list `value`. -/
def selectMultiMismatch : Json :=
  mkFieldSample
    [("options", Json.arr [Json.obj [("label", Json.str "A"), ("value", Json.str "a")]]),
     ("multi", Json.bool false),
     ("value", Json.arr [Json.obj [("label", Json.str "A"), ("value", Json.str "a")]])]
    "SelectField"

/-- A structurally valid form holding one text field. -/
def goodFormJson : Json :=
  Json.obj [("title", Json.str "f"), ("description", Json.str "d"),
            ("elements", Json.arr [mkFieldSample [("value", Json.str "v")] "TextField"])]

/-- A structurally valid form holding one fully conforming select field. -/
def selectFormJson : Json :=
  Json.obj [("title", Json.str "f"), ("description", Json.str "d"),
            ("elements", Json.arr [selectSample "SelectField"])]

/-- A form whose single field carries a bounding box of length one. -/
def badBboxFormJson : Json :=
  Json.obj [("title", Json.str "f"), ("description", Json.str "d"),
            ("elements", Json.arr
              [Json.obj [("title", Json.str "t"), ("description", Json.str "d"),
                         ("bbox", Json.arr [sampleCoord]),
                         ("element_name", Json.str "TextField"),
                         ("value", Json.str "v")]])]

/-- A valid text-field cell for table rows. -/
def cellT : Json := mkFieldSample [("value", Json.str "v")] "TextField"

/-- A `TableGroup` instance, valid except possibly for its row lengths. -/
def tableSample (cols : List String) (rows : List (List Json)) : Json :=
  Json.obj [("title", Json.str "t"), ("description", Json.str "d"),
            ("annotations", Json.arr
              [Json.obj [("title", Json.str "a"), ("description", Json.str "d"),
                         ("bbox", sampleBBoxJson),
                         ("element_name", Json.str "TextField")]]),
            ("element_name", Json.str "TableGroup"),
            ("columns", Json.arr (cols.map Json.str)),
            ("rows", Json.arr (rows.map Json.arr))]

/-- The error message of `TableGroup.match_columns`. -/
def rowLenMsg : String := "Row length must equal number of columns"

/-- A stored Fill-flow structure: a form with one text field titled Name. -/
def c3StoredJson : Json :=
  Json.obj [("title", Json.str "Contact"), ("description", Json.str "d"),
            ("elements", Json.arr
              [Json.obj [("title", Json.str "Name"), ("description", Json.str "d"),
                         ("bbox", sampleBBoxJson),
                         ("element_name", Json.str "TextField"),
                         ("value", Json.null)]])]

/-- A generated payload that conforms to the generic `Form` schema yet does
not reproduce `c3StoredJson`: its element list is empty. -/
def c3GenFormJson : Json :=
  Json.obj [("title", Json.str "Contact"), ("description", Json.str "d"),
            ("elements", Json.arr [])]

/-- A Fill-turn oracle whose classifier decision is yes and whose
schema-constrained generation emits `c3GenFormJson`. -/
def c3Oracle : LmOracle := ⟨Response.yes, c3GenFormJson, "Filled the form.", "ok"⟩

/-- The Fill thread handed to `fastformfill_chat`: the seeded system message
embedding the stored structure, then the user turn. -/
def c3FillMessages : List ContentMessage :=
  [⟨"system", [ContentPart.text (SYSTEM_PROMPT_FILL_format (Json.render c3StoredJson))]⟩,
   ⟨"user", [ContentPart.text "my name is Ada"]⟩]

/-- A model rejects undeclared attributes when every object carrying a key
outside its declared field list fails validation with the extra-inputs
error. -/
def RejectsUndeclared (validate : Json → Except PyErr Unit)
    (declared : List String) : Prop :=
  ∀ (kvs : List (String × Json)) (k : String),
    k ∈ objKeys kvs → k ∉ declared →
      validate (Json.obj kvs) = Except.error (PyErr.vErr extraMsg)

/-! ### Helper lemmas -/

/-- Bind on a successful `Except` step. -/
theorem exceptBind_ok {ε α β : Type} (a : α) (f : α → Except ε β) :
    (Except.ok a >>= f) = f a := rfl

/-- Bind on a failed `Except` step short-circuits. -/
theorem exceptBind_err {ε α β : Type} (e : ε) (f : α → Except ε β) :
    ((Except.error e : Except ε α) >>= f) = Except.error e := rfl

/-- An object carrying an undeclared key fails the `extra="forbid"` check. -/
theorem checkNoExtra_extra (declared : List String) (kvs : List (String × Json))
    (k : String) (hk : k ∈ objKeys kvs) (hnd : k ∉ declared) :
    checkNoExtra declared kvs = Except.error (PyErr.vErr extraMsg) := by
  unfold checkNoExtra
  rw [if_neg]
  intro hall
  exact hnd (of_decide_eq_true (List.all_eq_true.mp hall k hk))

/-- A validator that runs the `extra="forbid"` check first fails whole on an
undeclared key. -/
theorem bind_checkNoExtra_extra (declared : List String) (kvs : List (String × Json))
    (k : String) (rest : Unit → Except PyErr Unit)
    (hk : k ∈ objKeys kvs) (hnd : k ∉ declared) :
    (checkNoExtra declared kvs >>= rest) = Except.error (PyErr.vErr extraMsg) := by
  rw [checkNoExtra_extra declared kvs k hk hnd]; rfl

/-- The attachment loop keeps exactly the valid pages, in order, as image
parts. -/
theorem contentAppendLoop_eq_filter (pages : List (List UInt8)) :
    contentAppendLoop pages =
      (pages.filter MessageService._is_valid_base64_image).map mkImagePart := by
  induction pages with
  | nil => rfl
  | cons p ps ih =>
      by_cases hp : MessageService._is_valid_base64_image p <;>
        simp [contentAppendLoop, hp, ih, List.filter_cons]

/-- The assembled content of a Build user turn: the text item followed by
one image item per valid page. -/
theorem buildContentItems_filters (content : String) (pages : List (List UInt8)) :
    buildContentItems content (some pages) =
      ContentPart.text content ::
        (pages.filter MessageService._is_valid_base64_image).map mkImagePart := by
  simp [buildContentItems, contentAppendLoop_eq_filter]

/-- A yes-decision Build turn yields the structure message then the
commentary message. -/
theorem build_chat_yes_shape (o : LmOracle) (messages : List ContentMessage)
    (h : o.yes_no = Response.yes) :
    fastformbuild_chat o messages =
      [⟨"assistant", [ContentPart.text (Json.render o.gen_form)]⟩,
       ⟨"assistant", [ContentPart.text o.message_yes]⟩] := by
  simp [fastformbuild_chat, h, Response.value, InterpreterState.assistantAdd,
    InterpreterState.get_active_message, pyIndexNeg2, yesNoJsonText, List.append_assoc]
  rw [List.getElem_append_right (by omega)]
  simp

/-- A yes-decision Fill turn yields the structure message then the
commentary message. -/
theorem fill_chat_yes_shape (o : LmOracle) (messages : List ContentMessage)
    (h : o.yes_no = Response.yes) :
    fastformfill_chat o messages =
      [⟨"assistant", [ContentPart.text (Json.render o.gen_form)]⟩,
       ⟨"assistant", [ContentPart.text o.message_yes]⟩] := by
  simp [fastformfill_chat, h, Response.value, InterpreterState.assistantAdd,
    InterpreterState.get_active_message, pyIndexNeg2, yesNoJsonText, List.append_assoc]
  rw [List.getElem_append_right (by omega)]
  simp

/-- A no-decision Build turn yields the single commentary message. -/
theorem build_chat_no_shape (o : LmOracle) (messages : List ContentMessage)
    (h : o.yes_no = Response.no) :
    fastformbuild_chat o messages = [⟨"assistant", [ContentPart.text o.message_no]⟩] := by
  simp [fastformbuild_chat, h, Response.value, InterpreterState.assistantAdd,
    InterpreterState.get_active_message, pyIndexNeg2, yesNoJsonText]

/-- A no-decision Fill turn yields the single commentary message. -/
theorem fill_chat_no_shape (o : LmOracle) (messages : List ContentMessage)
    (h : o.yes_no = Response.no) :
    fastformfill_chat o messages = [⟨"assistant", [ContentPart.text o.message_no]⟩] := by
  simp [fastformfill_chat, h, Response.value, InterpreterState.assistantAdd,
    InterpreterState.get_active_message, pyIndexNeg2, yesNoJsonText]

/-! ### The claims -/

set_option maxHeartbeats 2000000

/-- C1: each per-turn chat orchestration call (`fastformbuild_chat` and
`fastformfill_chat`) returns exactly two new messages — the structure
message first, the free-text commentary second — when the classifier
decision is yes, and exactly one commentary message when it is no; the
decision is constrained to the closed `Response` set, so no other result
shape is produced. -/
theorem c1_turn_result_shape (o : LmOracle) (messages : List ContentMessage) :
    (o.yes_no = Response.yes →
        fastformbuild_chat o messages =
          [⟨"assistant", [ContentPart.text (Json.render o.gen_form)]⟩,
           ⟨"assistant", [ContentPart.text o.message_yes]⟩] ∧
        fastformfill_chat o messages =
          [⟨"assistant", [ContentPart.text (Json.render o.gen_form)]⟩,
           ⟨"assistant", [ContentPart.text o.message_yes]⟩]) ∧
    (o.yes_no = Response.no →
        fastformbuild_chat o messages =
          [⟨"assistant", [ContentPart.text o.message_no]⟩] ∧
        fastformfill_chat o messages =
          [⟨"assistant", [ContentPart.text o.message_no]⟩]) :=
  ⟨fun h => ⟨build_chat_yes_shape o messages h, fill_chat_yes_shape o messages h⟩,
   fun h => ⟨build_chat_no_shape o messages h, fill_chat_no_shape o messages h⟩⟩

/-- C1 witness: the two shapes at a concrete oracle and empty history. -/
theorem c1_turn_result_shape_witness :
    fastformbuild_chat ⟨Response.yes, goodFormJson, "commentary", "reply"⟩ [] =
      [⟨"assistant", [ContentPart.text (Json.render goodFormJson)]⟩,
       ⟨"assistant", [ContentPart.text "commentary"]⟩] ∧
    fastformfill_chat ⟨Response.no, goodFormJson, "commentary", "reply"⟩ [] =
      [⟨"assistant", [ContentPart.text "reply"]⟩] :=
  ⟨((c1_turn_result_shape ⟨Response.yes, goodFormJson, "commentary", "reply"⟩ []).1 rfl).1,
   ((c1_turn_result_shape ⟨Response.no, goodFormJson, "commentary", "reply"⟩ []).2 rfl).2⟩

/-- C2: evaluation of `SelectField` validation at concrete inputs. The
cardinality rule of `check_select` never runs: validating a fully conforming
instance (`multi=false`, `value=null`) and validating a violating one
(`multi=false`, `value` a list) both raise the same `AttributeError`, because
the after-validator looks up `get` on the model instance. The claim's
described behaviour — mismatch reported as a validation error, conforming
cardinality accepted — is the evident intent, and the code crashes instead. -/
theorem c2_select_validator_crashes :
    SelectField.validate (selectSample "SelectField") =
      Except.error (PyErr.attrErr "get") ∧
    SelectField.validate selectMultiMismatch =
      Except.error (PyErr.attrErr "get") := by
  constructor <;> decide

/-- C3 counterexample: a Fill turn whose classifier decision is yes, whose
stored structure (embedded in the seeded system message) holds one text
field, and whose generated payload passes the schema the code actually
constrains generation to (`fillGenerationSchema`, the generic `Form` model)
while not reproducing the stored structure: the turn returns that payload as
its structure message, refuting structural reproduction. -/
theorem c3_fill_returns_non_reproducing_structure :
    (fillGenerationSchema c3GenFormJson).isOk = true ∧
    specSameStructure c3StoredJson c3GenFormJson = false ∧
    fastformfill_chat c3Oracle c3FillMessages =
      [⟨"assistant", [ContentPart.text (Json.render c3GenFormJson)]⟩,
       ⟨"assistant", [ContentPart.text "Filled the form."]⟩] := by
  refine ⟨by decide, by decide, ?_⟩
  exact fill_chat_yes_shape c3Oracle c3FillMessages rfl

/-- C3 amended: in every Fill-flow yes-turn the structured generation is
constrained only by the generic `Form` schema (`fillGenerationSchema`), and
the structure message returned is the generator's output verbatim, whatever
its relation to the stored structure; structure preservation is requested
only by the system prompt text, not enforced. -/
theorem c3_fill_constrained_to_generic_schema (o : LmOracle)
    (messages : List ContentMessage) (h : o.yes_no = Response.yes) :
    fastformfill_chat o messages =
      [⟨"assistant", [ContentPart.text (Json.render o.gen_form)]⟩,
       ⟨"assistant", [ContentPart.text o.message_yes]⟩] ∧
    (fillGenerationSchema c3GenFormJson).isOk = true ∧
    specSameStructure c3StoredJson c3GenFormJson = false :=
  ⟨fill_chat_yes_shape o messages h, by decide, by decide⟩

/-- C3 witness: the amended statement applied at the concrete oracle. -/
theorem c3_fill_constrained_witness :
    fastformfill_chat c3Oracle [] =
      [⟨"assistant", [ContentPart.text (Json.render c3GenFormJson)]⟩,
       ⟨"assistant", [ContentPart.text "Filled the form."]⟩] :=
  (c3_fill_constrained_to_generic_schema c3Oracle [] rfl).1

/-- C4 counterexample: two `TableGroup` instances that are valid except for
one row of the wrong length — the offending row is the first row in one and
the second row in the other — fail with the identical error value, so the
validation failure does not identify the offending row. -/
theorem c4_row_error_does_not_identify_row :
    TableGroup.validate (tableSample ["a", "b"] [[cellT]]) =
      Except.error (PyErr.vErr rowLenMsg) ∧
    TableGroup.validate (tableSample ["a"] [[cellT], [cellT, cellT]]) =
      Except.error (PyErr.vErr rowLenMsg) := by
  constructor <;> decide

/-- C4 amended: `TableGroup` row validation succeeds exactly when every
row's length equals the number of columns, and any mismatch fails
deterministically with the fixed error `rowLenMsg`, which does not name the
offending row. -/
theorem c4_match_columns_exactness (columns : List String) (rows : List (List Json)) :
    ((TableGroup.match_columns columns rows).isOk = true ↔
      ∀ row ∈ rows, row.length = columns.length) ∧
    ((TableGroup.match_columns columns rows).isOk = false →
      TableGroup.match_columns columns rows = Except.error (PyErr.vErr rowLenMsg)) := by
  induction rows with
  | nil => simp [TableGroup.match_columns, Except.isOk, Except.toBool]
  | cons r rs ih =>
      by_cases hr : r.length = columns.length
      · simpa [TableGroup.match_columns, hr] using ih
      · simp [TableGroup.match_columns, hr, rowLenMsg, Except.isOk, Except.toBool]

/-- C4 witness: the amended statement applied at a concrete mismatching
table. -/
theorem c4_match_columns_witness :
    TableGroup.match_columns ["a"] [[Json.null, Json.null]] =
      Except.error (PyErr.vErr rowLenMsg) :=
  (c4_match_columns_exactness ["a"] [[Json.null, Json.null]]).2 (by decide)

/-- C5: every model of the form schema tree — `Coordinate`, `SelectOption`,
the `Annotation` base, all fourteen leaf field variants, all four group
variants, and `Form` — rejects any input object carrying an attribute it
does not declare. -/
theorem c5_undeclared_attributes_rejected :
    RejectsUndeclared Coordinate.validate coordinateFields ∧
    RejectsUndeclared SelectOption.validate selectOptionFields ∧
    RejectsUndeclared AnnotBase.validate annotBaseFields ∧
    RejectsUndeclared TextField.validate textFieldFields ∧
    RejectsUndeclared TextAreaField.validate textAreaFieldFields ∧
    RejectsUndeclared NumberField.validate numberFieldFields ∧
    RejectsUndeclared DateField.validate textFieldFields ∧
    RejectsUndeclared CheckboxField.validate textFieldFields ∧
    RejectsUndeclared RadioField.validate radioFieldFields ∧
    RejectsUndeclared SelectField.validate selectFieldFields ∧
    RejectsUndeclared FileField.validate fileFieldFields ∧
    RejectsUndeclared ImageField.validate fileFieldFields ∧
    RejectsUndeclared SignatureField.validate textFieldFields ∧
    RejectsUndeclared EmailField.validate textFieldFields ∧
    RejectsUndeclared UrlField.validate textFieldFields ∧
    RejectsUndeclared PhoneField.validate textFieldFields ∧
    RejectsUndeclared ListField.validate listFieldFields ∧
    RejectsUndeclared SectionGroup.validate sectionGroupFields ∧
    RejectsUndeclared RepeatGroup.validate repeatGroupFields ∧
    RejectsUndeclared WizardStep.validate wizardStepFields ∧
    RejectsUndeclared TableGroup.validate tableGroupFields ∧
    RejectsUndeclared Form.validate formFields :=
  ⟨fun kvs k hk hnd => bind_checkNoExtra_extra _ kvs k _ hk hnd,
   fun kvs k hk hnd => bind_checkNoExtra_extra _ kvs k _ hk hnd,
   fun kvs k hk hnd => bind_checkNoExtra_extra _ kvs k _ hk hnd,
   fun kvs k hk hnd => bind_checkNoExtra_extra _ kvs k _ hk hnd,
   fun kvs k hk hnd => bind_checkNoExtra_extra _ kvs k _ hk hnd,
   fun kvs k hk hnd => bind_checkNoExtra_extra _ kvs k _ hk hnd,
   fun kvs k hk hnd => bind_checkNoExtra_extra _ kvs k _ hk hnd,
   fun kvs k hk hnd => bind_checkNoExtra_extra _ kvs k _ hk hnd,
   fun kvs k hk hnd => bind_checkNoExtra_extra _ kvs k _ hk hnd,
   fun kvs k hk hnd => bind_checkNoExtra_extra _ kvs k _ hk hnd,
   fun kvs k hk hnd => bind_checkNoExtra_extra _ kvs k _ hk hnd,
   fun kvs k hk hnd => bind_checkNoExtra_extra _ kvs k _ hk hnd,
   fun kvs k hk hnd => bind_checkNoExtra_extra _ kvs k _ hk hnd,
   fun kvs k hk hnd => bind_checkNoExtra_extra _ kvs k _ hk hnd,
   fun kvs k hk hnd => bind_checkNoExtra_extra _ kvs k _ hk hnd,
   fun kvs k hk hnd => bind_checkNoExtra_extra _ kvs k _ hk hnd,
   fun kvs k hk hnd => bind_checkNoExtra_extra _ kvs k _ hk hnd,
   fun kvs k hk hnd => bind_checkNoExtra_extra _ kvs k _ hk hnd,
   fun kvs k hk hnd => bind_checkNoExtra_extra _ kvs k _ hk hnd,
   fun kvs k hk hnd => bind_checkNoExtra_extra _ kvs k _ hk hnd,
   fun kvs k hk hnd => bind_checkNoExtra_extra _ kvs k _ hk hnd,
   fun kvs k hk hnd => bind_checkNoExtra_extra _ kvs k _ hk hnd⟩

/-- C5 witness: a coordinate with an undeclared `z` attribute is rejected
with the extra-inputs error. -/
theorem c5_undeclared_attributes_witness :
    Coordinate.validate (Json.obj [("x", Json.null), ("y", Json.null), ("z", Json.null)]) =
      Except.error (PyErr.vErr extraMsg) :=
  c5_undeclared_attributes_rejected.1
    [("x", Json.null), ("y", Json.null), ("z", Json.null)] "z" (by decide) (by decide)

/-- C6: evaluation at concrete forms. A valid form without select fields
validates; a form with a length-one bounding box fails; but the structurally
valid form `selectFormJson`, whose single element is a fully conforming
select field, does not validate — it raises the `check_select`
`AttributeError` — refuting "for every valid Form instance, validate
succeeds". -/
theorem c6_validate_evaluation :
    (Form.validate goodFormJson).isOk = true ∧
    (Form.validate badBboxFormJson).isOk = false ∧
    Form.validate selectFormJson = Except.error (PyErr.attrErr "get") := by
  refine ⟨by decide, by decide, by decide⟩

/-- C8: when the language-model stage of a Build or Fill turn fails with any
error after the user message was received, the turn propagates the failure
and the persisted store gains only non-generated messages (the auto-seeded
system message and the user message, never an assistant message). The
persisted `Message` row is modelled from the spec, its class file not being
under src/. -/
theorem c8_failed_turn_persists_no_generated_content (store : List Message)
    (annotations : List (Nat × String)) (message_data : MessageCreateData)
    (form_pages : Option (List (List UInt8))) (now : Nat) (e : PyErr) :
    ((FastformBuildMessageService.chat store (fun _ => Except.error e)
        message_data form_pages now).snd = Except.error e ∧
     ∃ t, (FastformBuildMessageService.chat store (fun _ => Except.error e)
        message_data form_pages now).fst = store ++ t ∧
          t.all (fun m => m.content.role != "assistant") = true) ∧
    ((FastfillMessageService.chat store annotations (fun _ => Except.error e)
        message_data now).snd.isOk = false ∧
     ∃ t, (FastfillMessageService.chat store annotations (fun _ => Except.error e)
        message_data now).fst = store ++ t ∧
          t.all (fun m => m.content.role != "assistant") = true) := by
  constructor
  · by_cases hseed : (store.filter
        (fun m => m.thread_id == message_data.thread_id)).isEmpty <;>
      simp [FastformBuildMessageService.chat, MessageService._get_thread_history, hseed]
  · rcases hid : message_data.load_annotation_id with _ | i
    · by_cases hseed : (store.filter
          (fun m => m.thread_id == message_data.thread_id)).isEmpty <;>
        simp [FastfillMessageService.chat, MessageService._get_thread_history, hseed,
          hid, Except.isOk, Except.toBool]
    · by_cases hi : i = 0
      · by_cases hseed : (store.filter
            (fun m => m.thread_id == message_data.thread_id)).isEmpty <;>
          simp [FastfillMessageService.chat, MessageService._get_thread_history, hseed,
            hid, hi, Except.isOk, Except.toBool]
      · rcases hlook : AnnotationService.get_annotation_by_id annotations i with s | err
        all_goals by_cases hseed : (store.filter
            (fun m => m.thread_id == message_data.thread_id)).isEmpty
        all_goals simp [FastfillMessageService.chat, MessageService._get_thread_history,
          hseed, hid, hi, hlook, Except.isOk, Except.toBool]

/-- C9: in the Build flow every attachment failing the base64 check is
silently dropped from the outgoing content parts and every valid one is
appended as an image part, and the whole turn — its other messages and its
message count included — is exactly the turn run on the valid attachments
alone; no error is raised (the service is total in the pages). -/
theorem c9_invalid_attachments_silently_dropped (content : String)
    (pages : List (List UInt8)) (store : List Message)
    (lm : List ContentMessage → Except PyErr (List ContentMessage))
    (message_data : MessageCreateData) (now : Nat) :
    buildContentItems content (some pages) =
      ContentPart.text content ::
        (pages.filter MessageService._is_valid_base64_image).map mkImagePart ∧
    FastformBuildMessageService.chat store lm message_data (some pages) now =
      FastformBuildMessageService.chat store lm message_data
        (some (pages.filter MessageService._is_valid_base64_image)) now := by
  refine ⟨buildContentItems_filters content pages, ?_⟩
  have h : buildContentItems message_data.content (some pages) =
      buildContentItems message_data.content
        (some (pages.filter MessageService._is_valid_base64_image)) := by
    rw [buildContentItems_filters, buildContentItems_filters, List.filter_filter]
    simp
  simp only [FastformBuildMessageService.chat, h]

/-- C10 counterexample: the otherwise fully conforming `SelectField`-shaped
instance carrying the `TextField` discriminator is not accepted by element
validation — it aborts with the `check_select` `AttributeError` — so "for
every leaf field variant, an otherwise valid instance with a different
in-enum discriminator is accepted" fails at the select variant. -/
theorem c10_select_variant_not_accepted :
    Element.validate (selectSample "TextField") =
      Except.error (PyErr.attrErr "get") := by
  decide

/-- C10 amended: validation does not cross-check the `element_name`
discriminator against the instance's variant for any leaf field variant
other than `SelectField` (whose instances all fail): each of the thirteen
sample shapes is accepted under every one of the fourteen enum
discriminators, and is rejected under any discriminator outside the closed
enum. -/
theorem c10_discriminator_not_cross_checked :
    (annotEnumValues.all (fun en =>
        (sampleFieldJsons en).all (fun j => (Element.validate j).isOk))) = true ∧
    (∀ s : String, isAnnotEnumStr s = false →
      (sampleFieldJsons s).all (fun j => !(Element.validate j).isOk) = true) := by
  constructor
  · decide
  · intro s h
    simp [sampleFieldJsons, Element.validate, elementValidators, cellValidators,
      unionValidate, TextField.validate, TextAreaField.validate, NumberField.validate,
      DateField.validate, CheckboxField.validate, RadioField.validate,
      SelectField.validate, FileField.validate, ImageField.validate,
      SignatureField.validate, EmailField.validate, UrlField.validate,
      PhoneField.validate, ListField.validate, SectionGroup.validate,
      RepeatGroup.validate, WizardStep.validate, TableGroup.validate, checkNoExtra,
      reqField, annotFieldChecks, groupFieldChecks, lookupKey, objKeys, isStr,
      isStrOrNull, isBBox, isAnnotEnum, mkFieldSample, sampleBBoxJson, sampleCoord,
      Coordinate.validate, isIntOrNull, isBoolOrNull, isStrList, isSelectOptionList,
      isBoolJson, isSelectValue, isItemsList, SelectOption.validate, AnnotBase.validate,
      isStrOrNum, annotBaseFields, textFieldFields, textAreaFieldFields,
      numberFieldFields, radioFieldFields, selectFieldFields, fileFieldFields,
      listFieldFields, groupBaseFields, sectionGroupFields, repeatGroupFields,
      wizardStepFields, tableGroupFields, coordinateFields, selectOptionFields,
      exceptBind_ok, exceptBind_err, Except.isOk, Except.toBool, h]

/-- C10 witness: the amended statement's rejection direction at a concrete
out-of-enum discriminator. -/
theorem c10_discriminator_witness :
    (sampleFieldJsons "NotAField").all (fun j => !(Element.validate j).isOk) = true :=
  c10_discriminator_not_cross_checked.2 "NotAField" (by decide)

end Fastform
